import Mathlib

/-!
Shallow embedding of the `nullfs` FUSE filesystem (`src/main.rs`).

The program is a stateless FUSE handler (`struct NullFS;`, a unit struct with
no fields) exposing two fixed inodes: the root directory (inode 1) and a
single regular file `null` (inode 2).  Every handler method inspects its
inode/parent argument and replies with either a success payload built from
the two compiled-in `FileAttr` constants or with one of the errno values
`ENOENT`, `EPERM`, `ERANGE`.

Modelling conventions:
* Rust `u64`/`u32`/`u16`/`usize` arguments become `Nat`; `i64`/`i32` become
  `Int`.  The casts `offset as usize` (i64 → usize) and `flags as u32`
  (i32 → u32) wrap modulo `2^64` resp. `2^32` and are modelled by
  `i64AsUsize` / `i32AsU32`; `data.len() as u32` is modelled by
  `data.length % 2^32`.
* `SystemTime` is seconds since the epoch as a `Nat` (`UNIX_EPOCH` = 0);
  `Duration::from_secs(1)` becomes `TTL = 1`.
* Each reply object becomes the payload of an `Except Errno _`:
  `reply.error(e)` is `.error e`, `reply.entry(ttl, attr, gen)` is
  `.ok (ttl, attr, gen)`, `reply.attr(ttl, attr)` is `.ok (ttl, attr)`,
  `reply.data(bytes)` is `.ok bytes`, `reply.written(n)` is `.ok n`,
  `reply.opened(fh, flags)` is `.ok (fh, flags)`, `reply.created` is
  `.ok (ttl, attr, gen, fh, flags)`, `reply.size(n)` is `.ok n`, and
  `reply.ok()` is `.ok ()`.  For `readdir` the sequence of `reply.add`
  calls becomes the returned list of `(ino, cookie, kind, name)` tuples.
* The handler state is threaded explicitly: every method takes the
  `NullFS` value (`&mut self` in Rust) and returns it alongside the reply.
  Since the struct has no fields and the methods never write to `self`,
  every method returns the state unchanged, which makes claims of the form
  "independent of preceding operations" provable rather than assumed.
-/

namespace NullFS

/-- The file-kind tag (`fuser::FileType`). -/
inductive FileType where
  | NamedPipe
  | CharDevice
  | BlockDevice
  | Directory
  | RegularFile
  | Symlink
  | Socket
deriving DecidableEq, Repr

/-- The three errno values the program uses (`libc::{ENOENT, EPERM, ERANGE}`):
"no such entry", "operation not permitted", "result too large for buffer". -/
inductive Errno where
  | ENOENT
  | EPERM
  | ERANGE
deriving DecidableEq, Repr

/-- `fuser::TimeOrNow`, an argument type of `setattr`. -/
inductive TimeOrNow where
  | SpecificTime (t : Nat)
  | Now
deriving DecidableEq, Repr

/-- `fuser::FileAttr`; timestamps are seconds since the epoch. -/
structure FileAttr where
  ino : Nat
  size : Nat
  blocks : Nat
  atime : Nat
  mtime : Nat
  ctime : Nat
  crtime : Nat
  kind : FileType
  perm : Nat
  nlink : Nat
  uid : Nat
  gid : Nat
  rdev : Nat
  flags : Nat
  blksize : Nat
deriving DecidableEq, Repr

/-- `const TTL: Duration = Duration::from_secs(1);` (in seconds). -/
def TTL : Nat := 1

/-- `const DIR_ATTR: FileAttr` — the root directory, inode 1. -/
def DIR_ATTR : FileAttr where
  ino := 1
  size := 0
  blocks := 0
  atime := 0
  mtime := 0
  ctime := 0
  crtime := 0
  kind := FileType.Directory
  perm := 0o777
  nlink := 2
  uid := 0
  gid := 0
  rdev := 0
  flags := 0
  blksize := 0

/-- `const NULL_ATTR: FileAttr` — the `null` file, inode 2. -/
def NULL_ATTR : FileAttr where
  ino := 2
  size := 0
  blocks := 1
  atime := 0
  mtime := 0
  ctime := 0
  crtime := 0
  kind := FileType.RegularFile
  perm := 0o666
  nlink := 1
  uid := 0
  gid := 0
  rdev := 0
  flags := 0
  blksize := 0

/-- `struct NullFS;` — the handler state; a unit struct with no fields. -/
structure State where
deriving DecidableEq, Repr

/-- A concrete handler state (the only one, since `State` has no fields). -/
def fs0 : State := {}

/-- The Rust cast `x as usize` applied to an `i64` on a 64-bit target:
wraps modulo `2^64` into a non-negative machine integer. -/
def i64AsUsize (o : Int) : Nat := (o % (2 : Int) ^ 64).toNat

/-- The Rust cast `x as u32` applied to an `i32`: wraps modulo `2^32`. -/
def i32AsU32 (o : Int) : Nat := (o % (2 : Int) ^ 32).toNat

/-- `fn lookup(&mut self, _req, parent: u64, name: &OsStr, reply: ReplyEntry)`. -/
def lookup (fs : State) (parent : Nat) (name : String) :
    State × Except Errno (Nat × FileAttr × Nat) :=
  (fs, if parent = 1 ∧ name = "null" then .ok (TTL, NULL_ATTR, 0) else .error .ENOENT)

/-- `fn getattr(&mut self, _req, ino: u64, reply: ReplyAttr)`. -/
def getattr (fs : State) (ino : Nat) : State × Except Errno (Nat × FileAttr) :=
  (fs, if ino = 1 then .ok (TTL, DIR_ATTR)
       else if ino = 2 then .ok (TTL, NULL_ATTR)
       else .error .ENOENT)

/-- `fn setattr(&mut self, _req, ino, _mode, _uid, _gid, _size, _atime, _mtime,
_ctime, _fh, _crtime, _chgtime, _bkuptime, _flags, reply: ReplyAttr)`.
All attribute-change arguments are received and ignored by the source. -/
def setattr (fs : State) (ino : Nat) (_mode _uid _gid : Option Nat)
    (_size : Option Nat) (_atime _mtime : Option TimeOrNow) (_ctime : Option Nat)
    (_fh : Option Nat) (_crtime _chgtime _bkuptime : Option Nat)
    (_flags : Option Nat) : State × Except Errno (Nat × FileAttr) :=
  (fs, if ino = 1 then .ok (TTL, DIR_ATTR)
       else if ino = 2 then .ok (TTL, NULL_ATTR)
       else .error .ENOENT)

/-- `fn read(&mut self, _req, ino, _fh, _offset: i64, _size: u32, _flags: i32,
_lock_owner, reply: ReplyData)`; `reply.data(b"")` is the empty byte list. -/
def read (fs : State) (ino : Nat) (_fh : Nat) (_offset : Int) (_size : Nat)
    (_flags : Int) (_lockOwner : Option Nat) : State × Except Errno (List Nat) :=
  (fs, if ino = 2 then .ok [] else .error .ENOENT)

/-- The `entries` vector built inside `readdir`: `(ino, kind, name)` triples. -/
def readdirEntries : List (Nat × FileType × String) :=
  [(1, FileType.Directory, "."),
   (1, FileType.Directory, ".."),
   (2, FileType.RegularFile, "null")]

/-- `fn readdir(&mut self, _req, ino, _fh, offset: i64, reply: ReplyDirectory)`.
The loop `entries.into_iter().enumerate().skip(offset as usize)` calls
`reply.add(entry.0, (i + 1) as i64, entry.1, entry.2)` for each remaining
entry; the result list holds those calls as `(ino, cookie, kind, name)`. -/
def readdir (fs : State) (ino : Nat) (_fh : Nat) (offset : Int) :
    State × Except Errno (List (Nat × Nat × FileType × String)) :=
  (fs, if ino ≠ 1 then .error .ENOENT
       else .ok ((readdirEntries.enum.drop (i64AsUsize offset)).map
         (fun p => (p.2.1, p.1 + 1, p.2.2.1, p.2.2.2))))

/-- `fn write(&mut self, _req, ino, _fh, _offset: i64, data: &[u8],
_write_flags: u32, _flags: i32, _lock_owner, reply: ReplyWrite)`.
`reply.written(data.len() as u32)` truncates the length to 32 bits. -/
def write (fs : State) (ino : Nat) (_fh : Nat) (_offset : Int) (data : List Nat)
    (_writeFlags : Nat) (_flags : Int) (_lockOwner : Option Nat) :
    State × Except Errno Nat :=
  (fs, if ino ≠ 2 then .error .ENOENT else .ok (data.length % 2 ^ 32))

/-- `fn create(&mut self, _req, parent, name, _mode: u32, _umask: u32,
flags: i32, reply: ReplyCreate)`; on success
`reply.created(&TTL, &NULL_ATTR, 0, 2, flags as u32)`. -/
def create (fs : State) (parent : Nat) (name : String) (_mode _umask : Nat)
    (flags : Int) : State × Except Errno (Nat × FileAttr × Nat × Nat × Nat) :=
  (fs, if parent = 1 ∧ name = "null" then .ok (TTL, NULL_ATTR, 0, 2, i32AsU32 flags)
       else .error .EPERM)

/-- `fn mknod(&mut self, _req, parent, name, _mode, _umask, _rdev,
reply: ReplyEntry)`; on success `reply.entry(&TTL, &NULL_ATTR, 0)`. -/
def mknod (fs : State) (parent : Nat) (name : String) (_mode _umask _rdev : Nat) :
    State × Except Errno (Nat × FileAttr × Nat) :=
  (fs, if parent = 1 ∧ name = "null" then .ok (TTL, NULL_ATTR, 0) else .error .EPERM)

/-- `fn flush(&mut self, _req, ino, _fh, _lock_owner: u64, reply: ReplyEmpty)`. -/
def flush (fs : State) (ino : Nat) (_fh _lockOwner : Nat) :
    State × Except Errno Unit :=
  (fs, if ino = 1 then .error .EPERM
       else if ino = 2 then .ok ()
       else .error .ENOENT)

/-- `fn release(&mut self, _req, ino, _fh, _flags: i32, _lock_owner, _flush: bool,
reply: ReplyEmpty)`. -/
def release (fs : State) (ino : Nat) (_fh : Nat) (_flags : Int)
    (_lockOwner : Option Nat) (_flush : Bool) : State × Except Errno Unit :=
  (fs, if ino = 1 then .error .EPERM
       else if ino = 2 then .ok ()
       else .error .ENOENT)

/-- `fn fsync(&mut self, _req, ino, _fh, _datasync: bool, reply: ReplyEmpty)`. -/
def fsync (fs : State) (ino : Nat) (_fh : Nat) (_datasync : Bool) :
    State × Except Errno Unit :=
  (fs, if ino = 1 then .error .EPERM
       else if ino = 2 then .ok ()
       else .error .ENOENT)

/-- `fn open(&mut self, _req, ino, flags: i32, reply: ReplyOpen)`; on inode 2
`reply.opened(2, flags as u32)`. -/
def «open» (fs : State) (ino : Nat) (flags : Int) :
    State × Except Errno (Nat × Nat) :=
  (fs, if ino = 1 then .error .EPERM
       else if ino = 2 then .ok (2, i32AsU32 flags)
       else .error .ENOENT)

/-- `fn releasedir(&mut self, _req, ino, _fh, _flags: i32, reply: ReplyEmpty)`. -/
def releasedir (fs : State) (ino : Nat) (_fh : Nat) (_flags : Int) :
    State × Except Errno Unit :=
  (fs, if ino = 1 then .ok ()
       else if ino = 2 then .error .EPERM
       else .error .ENOENT)

/-- `fn fsyncdir(&mut self, _req, ino, _fh, _datasync: bool, reply: ReplyEmpty)`. -/
def fsyncdir (fs : State) (ino : Nat) (_fh : Nat) (_datasync : Bool) :
    State × Except Errno Unit :=
  (fs, if ino = 1 then .ok ()
       else if ino = 2 then .error .EPERM
       else .error .ENOENT)

/-- `fn opendir(&mut self, _req, ino, flags: i32, reply: ReplyOpen)`; on inode 1
`reply.opened(1, flags as u32)`. -/
def opendir (fs : State) (ino : Nat) (flags : Int) :
    State × Except Errno (Nat × Nat) :=
  (fs, if ino = 1 then .ok (1, i32AsU32 flags)
       else if ino = 2 then .error .EPERM
       else .error .ENOENT)

/-- `fn access(&mut self, _req, ino, _mask: i32, reply: ReplyEmpty)`. -/
def access (fs : State) (ino : Nat) (_mask : Int) : State × Except Errno Unit :=
  (fs, if ino = 1 then .ok ()
       else if ino = 2 then .ok ()
       else .error .ENOENT)

/-- `fn getxattr(&mut self, _req, ino, _name: &OsStr, size: u32,
reply: ReplyXattr)`. The `size == 0` test comes first; a non-zero size
replies `ERANGE` regardless of the inode. -/
def getxattr (fs : State) (ino : Nat) (_name : String) (size : Nat) :
    State × Except Errno Nat :=
  (fs, if size = 0 then
         if ino = 1 then .ok 0
         else if ino = 2 then .ok 0
         else .error .ENOENT
       else .error .ERANGE)

/-- One request to the handler: a constructor per `Filesystem` method the
source implements, carrying that method's arguments. -/
inductive Op where
  | lookup (parent : Nat) (name : String)
  | getattr (ino : Nat)
  | setattr (ino : Nat) (mode uid gid : Option Nat) (size : Option Nat)
      (atime mtime : Option TimeOrNow) (ctime : Option Nat) (fh : Option Nat)
      (crtime chgtime bkuptime : Option Nat) (flags : Option Nat)
  | read (ino fh : Nat) (offset : Int) (size : Nat) (flags : Int)
      (lockOwner : Option Nat)
  | readdir (ino fh : Nat) (offset : Int)
  | write (ino fh : Nat) (offset : Int) (data : List Nat) (writeFlags : Nat)
      (flags : Int) (lockOwner : Option Nat)
  | create (parent : Nat) (name : String) (mode umask : Nat) (flags : Int)
  | mknod (parent : Nat) (name : String) (mode umask rdev : Nat)
  | flush (ino fh lockOwner : Nat)
  | release (ino fh : Nat) (flags : Int) (lockOwner : Option Nat) (fl : Bool)
  | fsync (ino fh : Nat) (datasync : Bool)
  | «open» (ino : Nat) (flags : Int)
  | releasedir (ino fh : Nat) (flags : Int)
  | fsyncdir (ino fh : Nat) (datasync : Bool)
  | opendir (ino : Nat) (flags : Int)
  | access (ino : Nat) (mask : Int)
  | getxattr (ino : Nat) (name : String) (size : Nat)

/-- The state after dispatching one request (discarding the reply). -/
def applyOp (fs : State) : Op → State
  | .lookup p n => (lookup fs p n).1
  | .getattr i => (getattr fs i).1
  | .setattr i m u g s a mt c f cr ch bk fl =>
      (setattr fs i m u g s a mt c f cr ch bk fl).1
  | .read i f o s fl lk => (read fs i f o s fl lk).1
  | .readdir i f o => (readdir fs i f o).1
  | .write i f o d wf fl lk => (write fs i f o d wf fl lk).1
  | .create p n m um fl => (create fs p n m um fl).1
  | .mknod p n m um rd => (mknod fs p n m um rd).1
  | .flush i f lk => (flush fs i f lk).1
  | .release i f fl lk b => (release fs i f fl lk b).1
  | .fsync i f d => (fsync fs i f d).1
  | .«open» i fl => («open» fs i fl).1
  | .releasedir i f fl => (releasedir fs i f fl).1
  | .fsyncdir i f d => (fsyncdir fs i f d).1
  | .opendir i fl => (opendir fs i fl).1
  | .access i m => (access fs i m).1
  | .getxattr i n s => (getxattr fs i n s).1

/-- The state after dispatching a whole sequence of requests. -/
def run (fs : State) (ops : List Op) : State := ops.foldl applyOp fs

/-- Dispatching any single request leaves the handler state unchanged:
`State` has no fields (as `struct NullFS;` in the source), so this holds
definitionally. -/
theorem applyOp_eq (fs : State) (o : Op) : applyOp fs o = fs := by
  cases o <;> rfl

/-- Dispatching any sequence of requests leaves the handler state unchanged.
Since `State` is a fieldless structure, both sides are definitionally equal
by structure eta. -/
theorem run_eq (fs : State) (ops : List Op) : run fs ops = fs := rfl

end NullFS

open NullFS

/-- Claim C3: `readdir(1, offset)` is restartable and deterministic:
enumerating from offset 0 yields exactly the three entries ".", "..", "null"
in that order, the first two as directories with inode 1 and the third as a
regular file with inode 2, carrying the strictly increasing cookies 1, 2, 3
respectively; enumerating from offset 2 yields exactly the single entry
"null"; `readdir` on any inode other than 1 fails with "no such entry". -/
theorem C3_readdir (fs : State) :
    (∀ fh, (readdir fs 1 fh 0).2 =
      .ok [(1, 1, FileType.Directory, "."),
           (1, 2, FileType.Directory, ".."),
           (2, 3, FileType.RegularFile, "null")]) ∧
    (∀ fh, (readdir fs 1 fh 2).2 =
      .ok [(2, 3, FileType.RegularFile, "null")]) ∧
    (∀ i, i ≠ 1 → ∀ fh offset, (readdir fs i fh offset).2 = .error .ENOENT) := by
  refine ⟨fun fh => rfl, fun fh => rfl, fun i hi fh offset => ?_⟩
  simp [readdir, hi]

/-- Witness for C3 at concrete inputs. -/
theorem C3_readdir_witness :
    (readdir fs0 1 0 2).2 = .ok [(2, 3, FileType.RegularFile, "null")] ∧
    (readdir fs0 5 0 0).2 = .error .ENOENT :=
  ⟨(C3_readdir fs0).2.1 0, (C3_readdir fs0).2.2 5 (by decide) 0 0⟩

/-- Claim C4: `lookup(1, "null")` succeeds and returns the file entity's
attributes (inode 2, regular file) together with the fixed validity window
and generation 0; `lookup` with parent 1 and any other name, or with any
parent other than 1, fails with "no such entry". -/
theorem C4_lookup (fs : State) :
    (lookup fs 1 "null").2 = .ok (TTL, NULL_ATTR, 0) ∧
    NULL_ATTR.ino = 2 ∧ NULL_ATTR.kind = FileType.RegularFile ∧
    (∀ n, n ≠ "null" → (lookup fs 1 n).2 = .error .ENOENT) ∧
    (∀ p, p ≠ 1 → ∀ n, (lookup fs p n).2 = .error .ENOENT) :=
  ⟨rfl, rfl, rfl, fun n hn => by simp [lookup, hn],
   fun p hp n => by simp [lookup, hp]⟩

/-- Witness for C4 at concrete inputs. -/
theorem C4_lookup_witness :
    (lookup fs0 1 "null").2 = .ok (TTL, NULL_ATTR, 0) ∧
    (lookup fs0 1 "x").2 = .error .ENOENT ∧
    (lookup fs0 7 "null").2 = .error .ENOENT :=
  ⟨(C4_lookup fs0).1, (C4_lookup fs0).2.2.2.1 "x" (by decide),
   (C4_lookup fs0).2.2.2.2 7 (by decide) "null"⟩

/-- Claim C5: for every offset, every requested size, and regardless of any
sequence of preceding operations (in particular preceding `write`
operations), `read(2, offset, size)` succeeds and returns the empty byte
sequence; `read` on any inode other than 2 fails with "no such entry". -/
theorem C5_read (fs : State) :
    (∀ ops fh offset size flags lk,
      (read (run fs ops) 2 fh offset size flags lk).2 = .ok []) ∧
    (∀ i, i ≠ 2 → ∀ fh offset size flags lk,
      (read fs i fh offset size flags lk).2 = .error .ENOENT) :=
  ⟨fun _ _ _ _ _ _ => rfl, fun i hi fh o s f lk => by simp [NullFS.read, hi]⟩

/-- Witness for C5: a preceding write of "hi" to the file, then a read. -/
theorem C5_read_witness :
    (read (run fs0 [Op.write 2 2 0 [104, 105] 0 0 none]) 2 2 0 5 0 none).2 =
      .ok [] ∧
    (read fs0 5 0 0 0 0 none).2 = .error .ENOENT :=
  ⟨(C5_read fs0).1 [Op.write 2 2 0 [104, 105] 0 0 none] 2 0 5 0 none,
   (C5_read fs0).2 5 (by decide) 0 0 0 0 none⟩

/-- Claim C7: `getattr(1)` returns attributes with kind directory, size 0 and
link count 2, and `getattr(2)` returns attributes with kind regular file,
size 0 and link count 1; the returned attributes are identical across every
call, independent of all preceding operations; `getattr` on any other inode
fails with "no such entry". -/
theorem C7_getattr (fs : State) :
    (getattr fs 1).2 = .ok (TTL, DIR_ATTR) ∧
    DIR_ATTR.kind = FileType.Directory ∧ DIR_ATTR.size = 0 ∧ DIR_ATTR.nlink = 2 ∧
    (getattr fs 2).2 = .ok (TTL, NULL_ATTR) ∧
    NULL_ATTR.kind = FileType.RegularFile ∧ NULL_ATTR.size = 0 ∧
    NULL_ATTR.nlink = 1 ∧
    (∀ ops, getattr (run fs ops) 1 = getattr fs 1 ∧
            getattr (run fs ops) 2 = getattr fs 2) ∧
    (∀ i, i ≠ 1 → i ≠ 2 → (getattr fs i).2 = .error .ENOENT) := by
  refine ⟨rfl, rfl, rfl, rfl, rfl, rfl, rfl, rfl, fun ops => ?_,
    fun i h1 h2 => by simp [getattr, h1, h2]⟩
  rw [run_eq]
  exact ⟨rfl, rfl⟩

/-- Witness for C7 at concrete inputs. -/
theorem C7_getattr_witness :
    (getattr fs0 1).2 = .ok (TTL, DIR_ATTR) ∧
    getattr (run fs0 [Op.access 1 0]) 1 = getattr fs0 1 ∧
    (getattr fs0 3).2 = .error .ENOENT :=
  ⟨(C7_getattr fs0).1,
   ((C7_getattr fs0).2.2.2.2.2.2.2.2.1 [Op.access 1 0]).1,
   (C7_getattr fs0).2.2.2.2.2.2.2.2.2 3 (by decide) (by decide)⟩

/-- Claim C8: for inode 1 or 2 and every attribute name, `getxattr` with
queried size 0 succeeds reporting attribute-value length 0, and `getxattr`
with any queried size greater than 0 fails with "result too large for
buffer". -/
theorem C8_getxattr (fs : State) :
    (∀ n, (getxattr fs 1 n 0).2 = .ok 0 ∧ (getxattr fs 2 n 0).2 = .ok 0) ∧
    (∀ n s, 0 < s →
      (getxattr fs 1 n s).2 = .error .ERANGE ∧
      (getxattr fs 2 n s).2 = .error .ERANGE) := by
  refine ⟨fun n => ⟨rfl, rfl⟩, fun n s hs => ?_⟩
  have h : s ≠ 0 := Nat.pos_iff_ne_zero.mp hs
  exact ⟨by simp [getxattr, h], by simp [getxattr, h]⟩

/-- Witness for C8 at concrete inputs. -/
theorem C8_getxattr_witness :
    (getxattr fs0 1 "user.a" 0).2 = .ok 0 ∧
    (getxattr fs0 2 "user.a" 5).2 = .error .ERANGE :=
  ⟨((C8_getxattr fs0).1 "user.a").1,
   ((C8_getxattr fs0).2 "user.a" 5 (by decide)).2⟩

/-- Claim C9: for inode 1 or 2 and every combination of requested attribute
changes (mode, owner, group, size, timestamps, handle, flags), `setattr`
returns exactly the same reply that `getattr` returns for that inode and
leaves the handler state unchanged — no requested field is applied;
`setattr` on any other inode fails with "no such entry". -/
theorem C9_setattr (fs : State) :
    (∀ m u g s a mt c f cr ch bk fl,
      setattr fs 1 m u g s a mt c f cr ch bk fl = (fs, (getattr fs 1).2) ∧
      setattr fs 2 m u g s a mt c f cr ch bk fl = (fs, (getattr fs 2).2)) ∧
    (∀ i, i ≠ 1 → i ≠ 2 → ∀ m u g s a mt c f cr ch bk fl,
      (setattr fs i m u g s a mt c f cr ch bk fl).2 = .error .ENOENT) :=
  ⟨fun _ _ _ _ _ _ _ _ _ _ _ _ => ⟨rfl, rfl⟩,
   fun i h1 h2 m u g s a mt c f cr ch bk fl => by simp [setattr, h1, h2]⟩

/-- Witness for C9 at concrete inputs: a `setattr` requesting mode 0, uid 0,
size 7 and a specific mtime is answered exactly like `getattr`. -/
theorem C9_setattr_witness :
    setattr fs0 1 (some 0) (some 0) none (some 7) none
        (some (TimeOrNow.SpecificTime 9)) none none none none none none =
      (fs0, (getattr fs0 1).2) ∧
    (setattr fs0 9 none none none none none none none none none none none
        none).2 = .error .ENOENT :=
  ⟨((C9_setattr fs0).1 (some 0) (some 0) none (some 7) none
      (some (TimeOrNow.SpecificTime 9)) none none none none none none).1,
   (C9_setattr fs0).2 9 (by decide) (by decide) none none none none none none
      none none none none none none⟩

/-- Claim C2: `open`, `flush`, `release` and `fsync` on inode 1 fail with
"operation not permitted" and succeed on inode 2 (`open` returning the
constant handle 2 with the caller's flags echoed back, under the source's
`flags as u32` reinterpretation); `opendir`, `releasedir` and `fsyncdir` on
inode 2 fail with "operation not permitted" and succeed on inode 1
(`opendir` returning the constant handle 1 with the caller's flags echoed
back); on any other inode all of these fail with "no such entry". -/
theorem C2_handle_ops (fs : State) :
    (∀ g, («open» fs 1 g).2 = .error .EPERM) ∧
    (∀ f l, (flush fs 1 f l).2 = .error .EPERM) ∧
    (∀ f g l b, (release fs 1 f g l b).2 = .error .EPERM) ∧
    (∀ f b, (fsync fs 1 f b).2 = .error .EPERM) ∧
    (∀ g, («open» fs 2 g).2 = .ok (2, i32AsU32 g)) ∧
    (∀ f l, (flush fs 2 f l).2 = .ok ()) ∧
    (∀ f g l b, (release fs 2 f g l b).2 = .ok ()) ∧
    (∀ f b, (fsync fs 2 f b).2 = .ok ()) ∧
    (∀ g, (opendir fs 2 g).2 = .error .EPERM) ∧
    (∀ f g, (releasedir fs 2 f g).2 = .error .EPERM) ∧
    (∀ f b, (fsyncdir fs 2 f b).2 = .error .EPERM) ∧
    (∀ g, (opendir fs 1 g).2 = .ok (1, i32AsU32 g)) ∧
    (∀ f g, (releasedir fs 1 f g).2 = .ok ()) ∧
    (∀ f b, (fsyncdir fs 1 f b).2 = .ok ()) ∧
    (∀ i, i ≠ 1 → i ≠ 2 →
      (∀ g, («open» fs i g).2 = .error .ENOENT) ∧
      (∀ f l, (flush fs i f l).2 = .error .ENOENT) ∧
      (∀ f g l b, (release fs i f g l b).2 = .error .ENOENT) ∧
      (∀ f b, (fsync fs i f b).2 = .error .ENOENT) ∧
      (∀ g, (opendir fs i g).2 = .error .ENOENT) ∧
      (∀ f g, (releasedir fs i f g).2 = .error .ENOENT) ∧
      (∀ f b, (fsyncdir fs i f b).2 = .error .ENOENT)) := by
  refine ⟨fun g => rfl, fun f l => rfl, fun f g l b => rfl, fun f b => rfl,
    fun g => rfl, fun f l => rfl, fun f g l b => rfl, fun f b => rfl,
    fun g => rfl, fun f g => rfl, fun f b => rfl,
    fun g => rfl, fun f g => rfl, fun f b => rfl, ?_⟩
  intro i h1 h2
  refine ⟨fun g => ?_, fun f l => ?_, fun f g l b => ?_, fun f b => ?_,
      fun g => ?_, fun f g => ?_, fun f b => ?_⟩ <;>
    simp [NullFS.«open», NullFS.flush, NullFS.release, NullFS.fsync,
      NullFS.opendir, NullFS.releasedir, NullFS.fsyncdir, h1, h2]

/-- Witness for C2 at concrete inputs. -/
theorem C2_handle_ops_witness :
    («open» fs0 1 0).2 = .error .EPERM ∧
    («open» fs0 2 3).2 = .ok (2, i32AsU32 3) ∧
    (opendir fs0 1 3).2 = .ok (1, i32AsU32 3) ∧
    («open» fs0 7 0).2 = .error .ENOENT :=
  ⟨(C2_handle_ops fs0).1 0,
   (C2_handle_ops fs0).2.2.2.2.1 3,
   (C2_handle_ops fs0).2.2.2.2.2.2.2.2.2.2.2.1 3,
   ((C2_handle_ops fs0).2.2.2.2.2.2.2.2.2.2.2.2.2.2 7 (by decide)
      (by decide)).1 0⟩

/-- Claim C10: for every offset outside the range 0 to 2 — every offset
greater than or equal to 3 and every negative offset, within the `i64`
argument range — `readdir(1, offset)` succeeds and yields zero entries
rather than an error; in particular, resuming at the final cookie 3 returns
an empty, successful listing that terminates enumeration. -/
theorem C10_readdir_tail (fs : State) (fh : Nat) (offset : Int)
    (hlo : -(2 ^ 63) ≤ offset) (hhi : offset < 2 ^ 63)
    (hout : 3 ≤ offset ∨ offset < 0) :
    readdir fs 1 fh offset = (fs, .ok []) := by
  have e64 : (2 : Int) ^ 64 = 18446744073709551616 := by norm_num
  have e63 : (2 : Int) ^ 63 = 9223372036854775808 := by norm_num
  rw [e63] at hlo hhi
  have hge : 3 ≤ i64AsUsize offset := by
    unfold i64AsUsize
    rw [e64]
    omega
  have hlen : readdirEntries.enum.length = 3 := rfl
  have hd : readdirEntries.enum.drop (i64AsUsize offset) = [] :=
    List.drop_eq_nil_of_le (by rw [hlen]; exact hge)
  simp [readdir, hd]

/-- Witness for C10: resuming at the final cookie 3, and at a negative
offset, both yield an empty successful listing. -/
theorem C10_readdir_tail_witness :
    readdir fs0 1 0 3 = (fs0, .ok []) ∧
    readdir fs0 1 0 (-1) = (fs0, .ok []) :=
  ⟨C10_readdir_tail fs0 0 3 (by norm_num) (by norm_num) (Or.inl (by norm_num)),
   C10_readdir_tail fs0 0 (-1) (by norm_num) (by norm_num)
     (Or.inr (by norm_num))⟩

/-- On inode 2 `write` replies `written(data.len() as u32)`: the reported
count is the length reduced modulo `2^32`. -/
theorem write_ok_len (fs : State) (fh : Nat) (o : Int) (data : List Nat)
    (wf : Nat) (f : Int) (lk : Option Nat) :
    (write fs 2 fh o data wf f lk).2 = .ok (data.length % 2 ^ 32) := rfl

/-- Counterexample to claim C6 as stated: `write(2, offset, data)` reports
`data.len() as u32`, which truncates to 32 bits.  For data of length `2^32`
the code reports 0 bytes written, not `len(data) = 2^32`. -/
theorem C6_counterexample :
    (write fs0 2 0 0 (List.replicate (2 ^ 32) 0) 0 0 none).2 = .ok 0 ∧
    (List.replicate (2 ^ 32) (0 : Nat)).length = 2 ^ 32 ∧
    (0 : Nat) ≠ 2 ^ 32 := by
  refine ⟨?_, List.length_replicate _ _, by norm_num⟩
  rw [write_ok_len, List.length_replicate, Nat.mod_self]

/-- Claim C6 as amended: for every offset and every byte sequence `data`,
`write(2, offset, data)` succeeds, leaves the handler state unchanged
(retaining none of the bytes), and reports `len(data) mod 2^32` bytes
written — exactly `len(data)` whenever `len(data) < 2^32`; `write` on any
inode other than 2 fails with "no such entry". -/
theorem C6_write_amended (fs : State) :
    (∀ fh offset data wf flags lk,
      write fs 2 fh offset data wf flags lk =
        (fs, .ok (data.length % 2 ^ 32)) ∧
      (data.length < 2 ^ 32 →
        (write fs 2 fh offset data wf flags lk).2 = .ok data.length)) ∧
    (∀ i, i ≠ 2 → ∀ fh offset data wf flags lk,
      (write fs i fh offset data wf flags lk).2 = .error .ENOENT) := by
  refine ⟨fun fh o d wf f lk => ⟨rfl, fun h => ?_⟩,
    fun i hi fh o d wf f lk => by simp [NullFS.write, hi]⟩
  rw [write_ok_len, Nat.mod_eq_of_lt h]

/-- Witness for C6 (amended) at concrete inputs: writing the five bytes of
"hello" at offset 0 reports 5 bytes written; writing to inode 1 fails. -/
theorem C6_write_amended_witness :
    (write fs0 2 0 0 [104, 101, 108, 108, 111] 0 0 none).2 = .ok 5 ∧
    (write fs0 1 0 0 [104, 101, 108, 108, 111] 0 0 none).2 = .error .ENOENT :=
  ⟨((C6_write_amended fs0).1 0 0 [104, 101, 108, 108, 111] 0 0 none).2
      (by norm_num),
   (C6_write_amended fs0).2 1 (by decide) 0 0 [104, 101, 108, 108, 111] 0 0
      none⟩

/-- Counterexample to claim C1 as stated: the claim requires every
inode-taking operation — including `create` via its parent argument — to
fail with "no such entry" for inodes outside {1, 2}, but `create(3, "x")`
replies "operation not permitted". -/
theorem C1_counterexample :
    (create fs0 3 "x" 0 0 0).2 = .error .EPERM ∧
    Errno.EPERM ≠ Errno.ENOENT :=
  ⟨rfl, by decide⟩

/-- Claim C1 as amended: for every inode identifier not in {1, 2}, the
operations getattr, setattr, read, write, readdir, open, opendir, flush,
release, fsync, releasedir, fsyncdir, access, getxattr with queried size 0,
and lookup with that parent, all fail with "no such entry"; create and mknod
with that parent instead fail with "operation not permitted", and getxattr
with queried size greater than 0 fails with "result too large for buffer". -/
theorem C1_amended (fs : State) (ino : Nat) (h1 : ino ≠ 1) (h2 : ino ≠ 2) :
    (∀ n, (lookup fs ino n).2 = .error .ENOENT) ∧
    (getattr fs ino).2 = .error .ENOENT ∧
    (∀ m u g s a mt c f cr ch bk fl,
      (setattr fs ino m u g s a mt c f cr ch bk fl).2 = .error .ENOENT) ∧
    (∀ fh o s f lk, (read fs ino fh o s f lk).2 = .error .ENOENT) ∧
    (∀ fh o d wf f lk, (write fs ino fh o d wf f lk).2 = .error .ENOENT) ∧
    (∀ fh o, (readdir fs ino fh o).2 = .error .ENOENT) ∧
    (∀ g, («open» fs ino g).2 = .error .ENOENT) ∧
    (∀ g, (opendir fs ino g).2 = .error .ENOENT) ∧
    (∀ fh lk, (flush fs ino fh lk).2 = .error .ENOENT) ∧
    (∀ fh g lk b, (release fs ino fh g lk b).2 = .error .ENOENT) ∧
    (∀ fh b, (fsync fs ino fh b).2 = .error .ENOENT) ∧
    (∀ fh g, (releasedir fs ino fh g).2 = .error .ENOENT) ∧
    (∀ fh b, (fsyncdir fs ino fh b).2 = .error .ENOENT) ∧
    (∀ m, (access fs ino m).2 = .error .ENOENT) ∧
    (∀ n, (getxattr fs ino n 0).2 = .error .ENOENT) ∧
    (∀ n s, 0 < s → (getxattr fs ino n s).2 = .error .ERANGE) ∧
    (∀ n m um g, (create fs ino n m um g).2 = .error .EPERM) ∧
    (∀ n m um rd, (mknod fs ino n m um rd).2 = .error .EPERM) :=
  ⟨fun n => by simp [NullFS.lookup, h1],
   by simp [NullFS.getattr, h1, h2],
   fun m u g s a mt c f cr ch bk fl => by simp [NullFS.setattr, h1, h2],
   fun fh o s f lk => by simp [NullFS.read, h2],
   fun fh o d wf f lk => by simp [NullFS.write, h2],
   fun fh o => by simp [NullFS.readdir, h1],
   fun g => by simp [NullFS.«open», h1, h2],
   fun g => by simp [NullFS.opendir, h1, h2],
   fun fh lk => by simp [NullFS.flush, h1, h2],
   fun fh g lk b => by simp [NullFS.release, h1, h2],
   fun fh b => by simp [NullFS.fsync, h1, h2],
   fun fh g => by simp [NullFS.releasedir, h1, h2],
   fun fh b => by simp [NullFS.fsyncdir, h1, h2],
   fun m => by simp [NullFS.access, h1, h2],
   fun n => by simp [NullFS.getxattr, h1, h2],
   fun n s hs => by simp [NullFS.getxattr, Nat.pos_iff_ne_zero.mp hs],
   fun n m um g => by simp [NullFS.create, h1],
   fun n m um rd => by simp [NullFS.mknod, h1]⟩

/-- Witness for C1 (amended) at inode 3. -/
theorem C1_amended_witness :
    (getattr fs0 3).2 = .error .ENOENT ∧
    (readdir fs0 3 0 0).2 = .error .ENOENT ∧
    (getxattr fs0 3 "a" 1).2 = .error .ERANGE ∧
    (mknod fs0 3 "a" 0 0 0).2 = .error .EPERM := by
  have h := C1_amended fs0 3 (by decide) (by decide)
  exact ⟨h.2.1,
    h.2.2.2.2.2.1 0 0,
    h.2.2.2.2.2.2.2.2.2.2.2.2.2.2.2.1 "a" 1 (by decide),
    h.2.2.2.2.2.2.2.2.2.2.2.2.2.2.2.2.2 "a" 0 0 0⟩
